import Mathlib

/-!
# Verification of the Solarus core loop and input normalizer

Shallow embedding of the scheduling and input-normalization core of the
Solarus engine (`src/core/MainLoop.cpp`, `src/core/InputEvent.cpp`,
`include/solarus/core/System.h`, `include/solarus/core/Debug.h`).

Machine integers (`int64_t`, `Sint16`, `SDL_Keycode`) are modelled as `Int`
(no overflow occurs in the quantities the claims exercise); C++ `std::set`
becomes `Finset`; fallible accessors guarded by `SOLARUS_REQUIRE` become
`Except`.  External collaborators (SDL queue polling, the Video module, the
Lua runtime, audio) are modelled as explicit inputs/outputs or abstract
action labels, never as hidden state.
-/

namespace Solarus

/-- `System::fixed_timestep_ns` from `include/solarus/core/System.h`:
`static constexpr uint64_t fixed_timestep_ns = 10000000`. -/
def fixed_timestep_ns : Int := 10000000

/-- The huge-lag threshold hard-coded in `MainLoop::fixed_run`
(`if (lag >= 200000000)`). -/
def stall_threshold_ns : Int := 200000000

/-- `InputEvent::joypad_deadzone` initial value (`int joypad_deadzone = 500`
in `InputEvent.cpp`).  It is configurable via `-joypad-deadzone`; functions
below take the deadzone as an explicit argument and this constant is the
default. -/
def joypad_deadzone : Int := 500

/-! ## SDL events

The `SDL_Event` union, restricted to the variants `InputEvent.cpp` reads.
Each constructor carries exactly the fields the engine accesses.
Keycodes (`SDL_Keycode`) are `Int`, joypad buttons (`Uint8`) are `Nat`,
controller axis values (`Sint16`) are `Int`. -/
inductive SDLEvent where
  | keydown (key : Int) (rep : Bool)
  | keyup (key : Int) (rep : Bool)
  | textinput (text : String)
  | joybuttondown (button : Nat)
  | joybuttonup (button : Nat)
  | controlleraxismotion (axis : Int) (value : Int)
  | controllerbuttondown (button : Nat)
  | controllerbuttonup (button : Nat)
  | controllerdeviceadded (which : Int)
  | controllerdeviceremoved (which : Int)
  | controllerdeviceremapped (which : Int)
  | joyhatmotion (hat : Nat) (value : Nat)
  | mousemotion (x y : Int)
  | mousebuttondown (button : Nat) (x y : Int)
  | mousebuttonup (button : Nat) (x y : Int)
  | mousewheel
  | fingerdown (fid : Int) (x y pressure : Rat)
  | fingerup (fid : Int) (x y pressure : Rat)
  | fingermotion (fid : Int) (x y pressure : Rat)
  | quit
  | windowResized (w h : Int)
  | windowFocusLost
  | windowFocusGained
deriving DecidableEq

namespace SDLEvent

/-- `InputEvent::is_keyboard_event`: a key up/down whose repeat flag is
clear, unless keyboard repeat is globally enabled (`repeat_keyboard`). -/
def is_keyboard_event (repeatKeyboard : Bool) : SDLEvent → Bool
  | keydown _ rep => !rep || repeatKeyboard
  | keyup _ rep => !rep || repeatKeyboard
  | _ => false

/-- `InputEvent::is_keyboard_key_pressed()` (no argument overload). -/
def is_keyboard_key_pressed (repeatKeyboard : Bool) : SDLEvent → Bool
  | keydown _ rep => !rep || repeatKeyboard
  | _ => false

/-- `InputEvent::is_keyboard_key_released()` (no argument overload). -/
def is_keyboard_key_released (repeatKeyboard : Bool) : SDLEvent → Bool
  | keyup _ rep => !rep || repeatKeyboard
  | _ => false

/-- `InputEvent::is_joypad_event`. -/
def is_joypad_event : SDLEvent → Bool
  | controlleraxismotion _ _ => true
  | controllerbuttonup _ => true
  | controllerbuttondown _ => true
  | _ => false

/-- `InputEvent::is_controller_event`: the SDL type code lies between
`SDL_CONTROLLERAXISMOTION` (0x650) and `SDL_CONTROLLERDEVICEREMAPPED`
(0x655). -/
def is_controller_event : SDLEvent → Bool
  | controlleraxismotion _ _ => true
  | controllerbuttondown _ => true
  | controllerbuttonup _ => true
  | controllerdeviceadded _ => true
  | controllerdeviceremoved _ => true
  | controllerdeviceremapped _ => true
  | _ => false

/-- `InputEvent::is_joypad_added`. -/
def is_joypad_added : SDLEvent → Bool
  | controllerdeviceadded _ => true
  | _ => false

/-- `InputEvent::is_joypad_removed`. -/
def is_joypad_removed : SDLEvent → Bool
  | controllerdeviceremoved _ => true
  | _ => false

/-- `InputEvent::is_mouse_event`: motion, button up/down or wheel. -/
def is_mouse_event : SDLEvent → Bool
  | mousemotion _ _ => true
  | mousebuttondown _ _ _ => true
  | mousebuttonup _ _ _ => true
  | mousewheel => true
  | _ => false

/-- `InputEvent::is_finger_event`: finger motion, down or up. -/
def is_finger_event : SDLEvent → Bool
  | fingermotion _ _ _ _ => true
  | fingerdown _ _ _ _ => true
  | fingerup _ _ _ _ => true
  | _ => false

/-- `InputEvent::is_window_event`: only `SDL_QUIT` counts. -/
def is_window_event : SDLEvent → Bool
  | quit => true
  | _ => false

/-- `InputEvent::is_window_closing`. -/
def is_window_closing : SDLEvent → Bool
  | quit => true
  | _ => false

/-- `InputEvent::is_window_resizing`. -/
def is_window_resizing : SDLEvent → Bool
  | windowResized _ _ => true
  | _ => false

/-- `InputEvent::is_window_focus_lost`. -/
def is_window_focus_lost : SDLEvent → Bool
  | windowFocusLost => true
  | _ => false

/-- `InputEvent::is_window_focus_gained`. -/
def is_window_focus_gained : SDLEvent → Bool
  | windowFocusGained => true
  | _ => false

/-- `InputEvent::is_joypad_button_pressed`. -/
def is_joypad_button_pressed : SDLEvent → Bool
  | controllerbuttondown _ => true
  | _ => false

/-- `InputEvent::is_joypad_button_released`. -/
def is_joypad_button_released : SDLEvent → Bool
  | controllerbuttonup _ => true
  | _ => false

/-- `InputEvent::is_joypad_axis_moved`: the event is
`SDL_CONTROLLERAXISMOTION`. -/
def is_joypad_axis_moved : SDLEvent → Bool
  | controlleraxismotion _ _ => true
  | _ => false

/-- `InputEvent::is_joypad_hat_moved`: the source returns `false`
unconditionally (`return false; //LETS DEPRECATE THE HAT EVENTS`); the old
`SDL_JOYHATMOTION` test is commented out. -/
def is_joypad_hat_moved (_ : SDLEvent) : Bool :=
  false

end SDLEvent

/-! ## Keyboard keys

The `KeyboardKey` enum values (from the repository header `InputEvent.h`,
which is not part of the extracted sources) are the SDL keycodes themselves:
`InputEvent.cpp` casts `SDL_Keycode` to `KeyboardKey` directly.  `NONE` is
`SDLK_UNKNOWN = 0`; the arrow keys are the SDL2 scancode-derived keycodes. -/

def KEY_NONE : Int := 0
def KEY_RIGHT : Int := 1073741903
def KEY_LEFT : Int := 1073741904
def KEY_DOWN : Int := 1073741905
def KEY_UP : Int := 1073741906

/-- Modelled from the spec: the domain of the keyboard-key names table of
`InputEvent.cpp` ("a malformed/unknown key code maps to a "none" key
sentinel").  The table's exact domain lives in the missing header
`InputEvent.h`; this list records the letter, digit and arrow keycodes,
which are the ones the claims exercise.  Membership only matters inside
`get_keyboard_key` on genuine keyboard events. -/
def knownKeycodes : List Int :=
  [KEY_RIGHT, KEY_LEFT, KEY_DOWN, KEY_UP] ++
    (List.range 26).map (fun i => (97 : Int) + i) ++
    (List.range 10).map (fun i => (48 : Int) + i)

namespace SDLEvent

/-- `InputEvent::get_keyboard_key`: `KEY_NONE` when the event is not a
keyboard event or the keycode is not in the names table, otherwise the
keycode itself. -/
def get_keyboard_key (repeatKeyboard : Bool) (e : SDLEvent) : Int :=
  if !e.is_keyboard_event repeatKeyboard then KEY_NONE
  else
    match e with
    | keydown k _ => if k ∈ knownKeycodes then k else KEY_NONE
    | keyup k _ => if k ∈ knownKeycodes then k else KEY_NONE
    | _ => KEY_NONE

/-- `InputEvent::is_keyboard_key_pressed(KeyboardKey)`. -/
def is_keyboard_key_pressed_key (repeatKeyboard : Bool) (e : SDLEvent)
    (key : Int) : Bool :=
  e.is_keyboard_key_pressed repeatKeyboard && (e.get_keyboard_key repeatKeyboard == key)

/-- `InputEvent::is_keyboard_direction_key_pressed`: iterates over
`directional_keys = {RIGHT, UP, LEFT, DOWN, NONE}` until the `NONE`
terminator, testing `is_keyboard_key_pressed(key)` for each. -/
def is_keyboard_direction_key_pressed (repeatKeyboard : Bool) (e : SDLEvent) : Bool :=
  e.is_keyboard_key_pressed_key repeatKeyboard KEY_RIGHT ||
  e.is_keyboard_key_pressed_key repeatKeyboard KEY_UP ||
  e.is_keyboard_key_pressed_key repeatKeyboard KEY_LEFT ||
  e.is_keyboard_key_pressed_key repeatKeyboard KEY_DOWN

end SDLEvent

/-! ## Joypad axes -/

/-- `JoyPadAxis` values follow `SDL_GameControllerAxis`:
`LEFT_X = 0`, `LEFT_Y = 1`, `RIGHT_X = 2`, `RIGHT_Y = 3`, `INVALID = -1`. -/
def AXIS_INVALID : Int := -1
def AXIS_LEFT_X : Int := 0
def AXIS_LEFT_Y : Int := 1
def AXIS_RIGHT_X : Int := 2
def AXIS_RIGHT_Y : Int := 3

namespace SDLEvent

/-- `InputEvent::get_joypad_axis`: `INVALID` unless this is a joypad axis
event, otherwise `internal_event.caxis.axis`. -/
def get_joypad_axis : SDLEvent → Int
  | controlleraxismotion axis _ => axis
  | _ => AXIS_INVALID

/-- `InputEvent::get_joypad_axis_state` with the deadzone made an explicit
argument (the C++ reads the static, `-joypad-deadzone`-configurable
`joypad_deadzone`).  Returns `0` unless this is a joypad axis event;
otherwise `0` inside the deadzone, and `value/32767` (positive) or
`value/32768` (negative) outside it.  The C++ computes in `double`; every
quantity here is an exact small rational over power-of-two-and-32767
denominators, where `double` arithmetic is exact or the claim only needs
sign/equality at exactly representable points, so `Rat` is faithful. -/
def get_joypad_axis_state (deadzone : Int) : SDLEvent → Rat
  | controlleraxismotion _ value =>
      if |value| < deadzone then 0
      else if value > 0 then (value : Rat) / 32767 else (value : Rat) / 32768
  | _ => 0

/-- `InputEvent::is_joypad_axis_centered`. -/
def is_joypad_axis_centered (deadzone : Int) (e : SDLEvent) : Bool :=
  e.is_joypad_axis_moved && decide (e.get_joypad_axis_state deadzone = 0)

end SDLEvent

/-! ## Joypad hats (deprecated in the source) -/

/-- SDL hat position masks (`SDL_HAT_*`). -/
def HAT_UP : Nat := 1
def HAT_RIGHT : Nat := 2
def HAT_RIGHTUP : Nat := 3
def HAT_DOWN : Nat := 4
def HAT_RIGHTDOWN : Nat := 6
def HAT_LEFT : Nat := 8
def HAT_LEFTUP : Nat := 9
def HAT_LEFTDOWN : Nat := 12

namespace SDLEvent

/-- `InputEvent::get_joypad_hat`: `-1` unless `is_joypad_hat_moved()`,
otherwise `internal_event.jhat.hat`.  The second branch is dead code in the
source because `is_joypad_hat_moved` is constantly `false`; it is kept
here verbatim. -/
def get_joypad_hat (e : SDLEvent) : Int :=
  if !e.is_joypad_hat_moved then -1
  else
    match e with
    | joyhatmotion hat _ => (hat : Int)
    | _ => -1

/-- `InputEvent::get_joypad_hat_direction`: `-1` unless
`is_joypad_hat_moved()`, otherwise the 8-direction decoding of
`internal_event.jhat.value` (dead code in the source, kept verbatim). -/
def get_joypad_hat_direction (e : SDLEvent) : Int :=
  if !e.is_joypad_hat_moved then -1
  else
    match e with
    | joyhatmotion _ v =>
        if v = HAT_RIGHT then 0
        else if v = HAT_RIGHTUP then 1
        else if v = HAT_UP then 2
        else if v = HAT_LEFTUP then 3
        else if v = HAT_LEFT then 4
        else if v = HAT_LEFTDOWN then 5
        else if v = HAT_DOWN then 6
        else if v = HAT_RIGHTDOWN then 7
        else -1
    | _ => -1

/-- `InputEvent::is_joypad_hat_centered`:
`is_joypad_hat_moved() && get_joypad_hat_direction() == -1`. -/
def is_joypad_hat_centered (e : SDLEvent) : Bool :=
  e.is_joypad_hat_moved && (e.get_joypad_hat_direction == -1)

/-- `InputEvent::get_direction`: keyboard direction keys first
(right = 0, up = 2, left = 4, down = 6), then a non-centered joypad axis
(X-like axis gives 0/4, otherwise 6/2, by the sign of the state), then the
hat passthrough; `-1` when nothing matches. -/
def get_direction (repeatKeyboard : Bool) (deadzone : Int) (e : SDLEvent) : Int :=
  if e.is_keyboard_direction_key_pressed repeatKeyboard then
    let k := e.get_keyboard_key repeatKeyboard
    if k = KEY_RIGHT then 0
    else if k = KEY_UP then 2
    else if k = KEY_LEFT then 4
    else if k = KEY_DOWN then 6
    else -1
  else if e.is_joypad_axis_moved && !e.is_joypad_axis_centered deadzone then
    let axis := e.get_joypad_axis
    if axis = AXIS_LEFT_X ∨ axis = AXIS_RIGHT_X then
      if e.get_joypad_axis_state deadzone > 0 then 0 else 4
    else
      if e.get_joypad_axis_state deadzone > 0 then 6 else 2
  else if e.is_joypad_hat_moved then
    e.get_joypad_hat_direction
  else -1

/-- Second definition following the spec's words for comparison: the
direction computation with the hat branch removed (keyboard first, then
axis, else `-1`). -/
def get_direction_spec_nohat (repeatKeyboard : Bool) (deadzone : Int)
    (e : SDLEvent) : Int :=
  if e.is_keyboard_direction_key_pressed repeatKeyboard then
    let k := e.get_keyboard_key repeatKeyboard
    if k = KEY_RIGHT then 0
    else if k = KEY_UP then 2
    else if k = KEY_LEFT then 4
    else if k = KEY_DOWN then 6
    else -1
  else if e.is_joypad_axis_moved && !e.is_joypad_axis_centered deadzone then
    let axis := e.get_joypad_axis
    if axis = AXIS_LEFT_X ∨ axis = AXIS_RIGHT_X then
      if e.get_joypad_axis_state deadzone > 0 then 0 else 4
    else
      if e.get_joypad_axis_state deadzone > 0 then 6 else 2
  else -1

end SDLEvent

/-! ## Builds and the precondition macros of `Debug.h` -/

/-- Whether the engine was compiled with or without `NDEBUG`. -/
inductive Build where
  | debug
  | release
deriving DecidableEq

/-- `SOLARUS_REQUIRE(condition, message)` from `Debug.h`:
`((condition) ? (void)0 : Debug::die(message))`.  The macro does not look
at `NDEBUG`, so it expands identically in both builds; `Debug::die` is
`[[noreturn]]`, modelled as the `error` outcome. -/
def SOLARUS_REQUIRE (_b : Build) (cond : Bool) (msg : String) :
    Except String Unit :=
  if cond then .ok () else .error msg

/-- `SOLARUS_ASSERT(condition, message)` from `Debug.h`: expands to
`SOLARUS_REQUIRE` when `NDEBUG` is not defined (debug build) and to
`((void)0)` otherwise. -/
def SOLARUS_ASSERT (b : Build) (cond : Bool) (msg : String) :
    Except String Unit :=
  match b with
  | .debug => SOLARUS_REQUIRE b cond msg
  | .release => .ok ()

/-- Mouse buttons (`InputEvent::MouseButton`); values follow the SDL
button codes (`SDL_BUTTON_LEFT = 1`, ...), with a distinguished `NONE`
sentinel per the names table of `InputEvent.cpp`. -/
inductive MouseButton where
  | NONE
  | LEFT
  | MIDDLE
  | RIGHT
  | X1
  | X2
  | other (n : Nat)
deriving DecidableEq

/-- Decoding of an SDL mouse button code. -/
def mouseButtonOfCode (n : Nat) : MouseButton :=
  if n = 1 then .LEFT
  else if n = 2 then .MIDDLE
  else if n = 3 then .RIGHT
  else if n = 4 then .X1
  else if n = 5 then .X2
  else .other n

/-- `JoyPadButton::INVALID = SDL_CONTROLLER_BUTTON_INVALID = -1`. -/
def JOYPAD_BUTTON_INVALID : Int := -1

namespace SDLEvent

/-- `InputEvent::get_mouse_button`: the `NONE` sentinel when this is not a
mouse event, the SDL button code otherwise. -/
def get_mouse_button (e : SDLEvent) : MouseButton :=
  if !e.is_mouse_event then MouseButton.NONE
  else
    match e with
    | mousebuttondown b _ _ => mouseButtonOfCode b
    | mousebuttonup b _ _ => mouseButtonOfCode b
    | _ => mouseButtonOfCode 0

/-- `InputEvent::get_joypad_button`: the `INVALID` sentinel unless the
event is a joypad button press or release. -/
def get_joypad_button (e : SDLEvent) : Int :=
  if !(e.is_joypad_button_pressed || e.is_joypad_button_released) then
    JOYPAD_BUTTON_INVALID
  else
    match e with
    | controllerbuttondown b => (b : Int)
    | controllerbuttonup b => (b : Int)
    | _ => JOYPAD_BUTTON_INVALID

/-- `InputEvent::get_mouse_position`:
`SOLARUS_REQUIRE(is_mouse_event(), "Event is not a mouse event")`, then the
event coordinates mapped through `Video::output_to_quest_coordinates`.
The Video module is an external collaborator (out of the extracted
sources); its coordinate transform is modelled as the identity, which does
not affect the guard behaviour the claims are about. -/
def get_mouse_position (b : Build) (e : SDLEvent) : Except String (Int × Int) :=
  match SOLARUS_REQUIRE b e.is_mouse_event "Event is not a mouse event" with
  | .error m => .error m
  | .ok _ =>
      match e with
      | mousebuttondown _ x y => .ok (x, y)
      | mousebuttonup _ x y => .ok (x, y)
      | mousemotion x y => .ok (x, y)
      | _ => .ok (0, 0)

/-- Truncation toward zero, the C++ float-to-integer conversion. -/
def cTrunc (q : Rat) : Int :=
  if 0 ≤ q then ⌊q⌋ else ⌈q⌉

/-- `InputEvent::get_finger_position`:
`SOLARUS_REQUIRE(is_finger_event(), "Event is not a touch finger event")`,
then the normalized finger coordinates scaled by the output size (an
external Video query, passed here as arguments) and mapped through the
external coordinate transform (modelled as the identity). -/
def get_finger_position (b : Build) (outW outH : Int) (e : SDLEvent) :
    Except String (Int × Int) :=
  match SOLARUS_REQUIRE b e.is_finger_event "Event is not a touch finger event" with
  | .error m => .error m
  | .ok _ =>
      match e with
      | fingerdown _ x y _ => .ok (cTrunc (x * outW), cTrunc (y * outH))
      | fingerup _ x y _ => .ok (cTrunc (x * outW), cTrunc (y * outH))
      | fingermotion _ x y _ => .ok (cTrunc (x * outW), cTrunc (y * outH))
      | _ => .ok (0, 0)

/-- `InputEvent::get_finger_pressure`:
`SOLARUS_REQUIRE(is_finger_event(), ...)` then
`internal_event.tfinger.pressure`. -/
def get_finger_pressure (b : Build) (e : SDLEvent) : Except String Rat :=
  match SOLARUS_REQUIRE b e.is_finger_event "Event is not a touch finger event" with
  | .error m => .error m
  | .ok _ =>
      match e with
      | fingerdown _ _ _ p => .ok p
      | fingerup _ _ _ p => .ok p
      | fingermotion _ _ _ p => .ok p
      | _ => .ok 0

end SDLEvent

/-! ## `InputEvent::get_event`: the raw-event classification pass

`get_event` polls one raw SDL event and, before wrapping it, updates the
process-wide pressed-key and pressed-joypad-button sets, possibly forcing
the repeat flag of the produced event, and possibly pushing a synthesized
`SDL_QUIT` back onto the raw queue (`simulate_window_closing`).  The mouse
capture calls (`SDL_CaptureMouse`) mutate only external SDL state and are
not modelled. -/

/-- The static state `get_event` reads and writes:
`std::set<SDL_Keycode> keys_pressed` and
`std::set<Uint8> jbuttons_pressed`. -/
structure InputState where
  keysPressed : Finset Int
  jbuttonsPressed : Finset Nat
deriving DecidableEq

/-- Result of processing one raw event in `InputEvent::get_event`: the
produced (possibly repeat-forced) event, the updated pressed sets, and the
events pushed back onto the raw SDL queue (`SDL_PushEvent`). -/
structure GetEventResult where
  produced : SDLEvent
  state : InputState
  injected : List SDLEvent
deriving DecidableEq

/-- One step of `InputEvent::get_event` (the `switch` on the raw event):
* `SDL_KEYDOWN`: `keys_pressed.insert(key)`; if the key was already
  present, force `repeat = 1` on the produced event;
* `SDL_KEYUP`: `keys_pressed.erase(key)`; if the key was absent, force
  `repeat = 1`;
* `SDL_JOYBUTTONDOWN`: insert into `jbuttons_pressed`; if the resulting
  set equals `quit_combo`, call `simulate_window_closing()`, which pushes
  an `SDL_QUIT` event onto the raw queue (the produced event is still the
  button event itself);
* `SDL_JOYBUTTONUP`: erase from `jbuttons_pressed`;
* anything else: state unchanged, the raw event is returned as is. -/
def get_event_process (quitCombo : Finset Nat) (s : InputState)
    (raw : SDLEvent) : GetEventResult :=
  match raw with
  | SDLEvent.keydown k rep =>
      if k ∈ s.keysPressed then
        ⟨SDLEvent.keydown k true, s, []⟩
      else
        ⟨SDLEvent.keydown k rep, { s with keysPressed := insert k s.keysPressed }, []⟩
  | SDLEvent.keyup k rep =>
      if k ∈ s.keysPressed then
        ⟨SDLEvent.keyup k rep, { s with keysPressed := s.keysPressed.erase k }, []⟩
      else
        ⟨SDLEvent.keyup k true, s, []⟩
  | SDLEvent.joybuttondown b =>
      let pressed := insert b s.jbuttonsPressed
      ⟨SDLEvent.joybuttondown b, { s with jbuttonsPressed := pressed },
        if pressed = quitCombo then [SDLEvent.quit] else []⟩
  | SDLEvent.joybuttonup b =>
      ⟨SDLEvent.joybuttonup b, { s with jbuttonsPressed := s.jbuttonsPressed.erase b }, []⟩
  | e => ⟨e, s, []⟩

/-- Folding `get_event_process` over a whole raw-event sequence, keeping
only the state (the classification pass of one or more ticks). -/
def get_event_process_all (quitCombo : Finset Nat) (s : InputState)
    (raws : List SDLEvent) : InputState :=
  raws.foldl (fun st raw => (get_event_process quitCombo st raw).state) s

/-- Second definition following the spec's words: "the set of keys
currently down" after a sequence of raw events, starting from a given set —
the fold in which a key-down makes the key down and a key-up makes it up,
with no repeat-tracking at all. -/
def keysCurrentlyDownFrom (keys : Finset Int) (raws : List SDLEvent) : Finset Int :=
  raws.foldl
    (fun keys raw =>
      match raw with
      | SDLEvent.keydown k _ => insert k keys
      | SDLEvent.keyup k _ => keys.erase k
      | _ => keys)
    keys

/-- The set of keys currently down after a raw sequence, from a fresh
start. -/
def keysCurrentlyDown (raws : List SDLEvent) : Finset Int :=
  keysCurrentlyDownFrom ∅ raws

/-- The initial static state: both pressed sets start empty
(`InputEvent::initialize` / static initialization). -/
def initialInputState : InputState := ⟨∅, ∅⟩

/-! ## `MainLoop`: the cross-thread Lua command queue -/

/-- The queue state: `std::vector<std::string> lua_commands` plus the two
counters `num_lua_commands_pushed` and `num_lua_commands_done`. -/
structure CommandQueue where
  pending : List String
  pushed : Nat
  done : Nat
deriving DecidableEq

/-- `MainLoop::push_lua_command`: under the mutex, `push_back` the command
and return `num_lua_commands_pushed++` (the pre-increment value). -/
def push_lua_command (q : CommandQueue) (c : String) : Nat × CommandQueue :=
  (q.pushed, { q with pending := q.pending ++ [c], pushed := q.pushed + 1 })

/-- Observable actions of the Lua-command part of
`MainLoop::check_input`, in program order: taking and dropping the
`lua_commands_mutex`, executing one command against the scripting layer
(`do_string_with_easy_env`), and clearing the pending vector. -/
inductive LuaAction where
  | acquireLock
  | execCommand (c : String)
  | clearPending
  | releaseLock
deriving DecidableEq

/-- The Lua-command drain of `MainLoop::check_input`:
`if (lua_console_enabled && !lua_commands.empty())`, then inside a
`std::lock_guard` scope, execute every pending command in order
(incrementing `num_lua_commands_done` after each) and finally
`lua_commands.clear()`; the lock is released when the guard goes out of
scope, after the loop and the clear.  Returns the action trace and the
updated queue. -/
def checkInputLuaDrain (enabled : Bool) (q : CommandQueue) :
    List LuaAction × CommandQueue :=
  if enabled ∧ q.pending ≠ [] then
    (LuaAction.acquireLock ::
       (q.pending.map LuaAction.execCommand ++
         [LuaAction.clearPending, LuaAction.releaseLock]),
     { q with pending := [], done := q.done + q.pending.length })
  else ([], q)

/-- The commands executed in a trace, in order. -/
def execedCommands (tr : List LuaAction) : List String :=
  tr.filterMap fun a =>
    match a with
    | LuaAction.execCommand c => some c
    | _ => none

/-- Whether some command in the trace is executed while the lock is held;
the `held` accumulator tracks lock possession through the trace. -/
def someExecWhileLocked : List LuaAction → Bool → Bool
  | [], _ => false
  | LuaAction.execCommand _ :: rest, held => held || someExecWhileLocked rest held
  | LuaAction.acquireLock :: rest, _ => someExecWhileLocked rest true
  | LuaAction.releaseLock :: rest, _ => someExecWhileLocked rest false
  | LuaAction.clearPending :: rest, held => someExecWhileLocked rest held

/-- Whether the trace releases the lock strictly before the first command
execution — the shape the claim asserts ("the pending list is copied out
and cleared and the lock is released before the commands are executed"). -/
def releasedBeforeFirstExec : List LuaAction → Bool
  | [] => true
  | LuaAction.execCommand _ :: _ => false
  | LuaAction.releaseLock :: _ => true
  | _ :: rest => releasedBeforeFirstExec rest

/-- Whether some command in the trace is executed while the lock is NOT
held. -/
def someExecWhileUnlocked : List LuaAction → Bool → Bool
  | [], _ => false
  | LuaAction.execCommand _ :: rest, held => !held || someExecWhileUnlocked rest held
  | LuaAction.acquireLock :: rest, _ => someExecWhileUnlocked rest true
  | LuaAction.releaseLock :: rest, _ => someExecWhileUnlocked rest false
  | LuaAction.clearPending :: rest, held => someExecWhileUnlocked rest held

/-! ## `MainLoop::fixed_run`: fixed-timestep scheduling -/

/-- The catch-up loop of `MainLoop::fixed_run`:

```
while (lag >= (int64_t)System::fixed_timestep_ns &&
       num_updates < 10 && !is_exiting() && !is_suspended()) {
  step(System::fixed_timestep_ns); lag -= ...; ++num_updates;
}
```

`step` may itself set the exiting or suspended flags (e.g. a Lua call to
`set_exiting`), so the pair observed at the `n`-th guard check is supplied
by the `flags` function (`(is_exiting, is_suspended)`).  Returns the final
`(lag, num_updates)`.  The recursion is made structural on the fuel
`10 - n`, which the guard `n < 10` guarantees never runs out before the
guard itself stops the loop, so only the guard decides termination. -/
def catchupLoopGo (flags : Nat → Bool × Bool) :
    Nat → Int → Nat → Int × Nat
  | 0, lag, n => (lag, n)
  | fuel + 1, lag, n =>
      if fixed_timestep_ns ≤ lag ∧ n < 10 ∧
          (flags n).1 = false ∧ (flags n).2 = false then
        catchupLoopGo flags fuel (lag - fixed_timestep_ns) (n + 1)
      else (lag, n)

/-- The catch-up loop entered at lag `lag` with `num_updates = n`. -/
def catchupLoop (flags : Nat → Bool × Bool) (lag : Int) (n : Nat) : Int × Nat :=
  catchupLoopGo flags (10 - n) lag n

/-- The flags of a frame during which `step` never sets exiting or
suspended. -/
def noFlags : Nat → Bool × Bool := fun _ => (false, false)

/-- The persistent state of `MainLoop::fixed_run` between frames:
`last_frame_date`, `lag` and `time_dropped` (all modelled as `Int`;
the source uses `uint64_t`/`int64_t` and none of the claimed scenarios
wrap). -/
structure FixedState where
  lastFrameDate : Int
  lag : Int
  timeDropped : Int
deriving DecidableEq

/-- Steps 1–2 of a `fixed_run` frame: measure the last iteration
(`now = real_time - time_dropped`, accumulate `lag`) and apply the
huge-lag branch (`if (lag >= 200000000)`): drop `lag - fixed_timestep_ns`
into `time_dropped`, reset `lag` to one timestep, and re-derive
`last_frame_date` from the adjusted real time. -/
def accumulateAndAdjust (realTime : Int) (s : FixedState) : FixedState :=
  let now := realTime - s.timeDropped
  let lastFrameDuration := now - s.lastFrameDate
  let lag := s.lag + lastFrameDuration
  if stall_threshold_ns ≤ lag then
    let timeDropped := s.timeDropped + (lag - fixed_timestep_ns)
    { lastFrameDate := realTime - timeDropped
      lag := fixed_timestep_ns
      timeDropped := timeDropped }
  else
    { lastFrameDate := now, lag := lag, timeDropped := s.timeDropped }

/-- Result of one `fixed_run` frame: updated scheduler state, the number
of simulation steps run, and whether the frame drew. -/
structure FixedFrameResult where
  state : FixedState
  numUpdates : Nat
  drew : Bool
deriving DecidableEq

/-- One iteration of the `while (!is_exiting())` loop of
`MainLoop::fixed_run`: accumulate and stall-adjust the lag, drain input
(which does not touch the scheduler variables), run the turbo forced step
(`if (turbo && !is_suspended())`), run the catch-up loop, and draw iff at
least one step ran and the loop is not suspended.  The end-of-frame sleeps
only consume real time and are not modelled.  `suspended` is the value of
`is_suspended()` at the turbo check and the draw check; the values observed
inside the catch-up loop come from `flags`. -/
def fixedFrame (realTime : Int) (turbo suspended : Bool)
    (flags : Nat → Bool × Bool) (s : FixedState) : FixedFrameResult :=
  let s1 := accumulateAndAdjust realTime s
  let start : Int × Nat :=
    if turbo && !suspended then (s1.lag - fixed_timestep_ns, 1) else (s1.lag, 0)
  let fin := catchupLoop flags start.1 start.2
  { state := { s1 with lag := fin.1 }
    numUpdates := fin.2
    drew := decide (0 < fin.2) && !suspended }

/-! ## `MainLoop::dynamic_run`: dynamic-timestep scheduling -/

/-- The exact rational value of the literal `0.01f`
(`auto delta_buffer_spill = 0.01f` in `MainLoop::dynamic_run`): the
nearest binary32 to 1/100 is `10737418 * 2^-30`. -/
def delta_buffer_spill : Rat := 10737418 / 1073741824

/-- Per-frame outputs of the dynamic-timestep computation. -/
structure DynamicFrameResult where
  spill : Int
  smoothedDuration : Int
  deltaBuffer : Int
deriving DecidableEq

/-- The timing computation of one non-suspended `dynamic_run` frame:

```
used = (last_frame_duration > perfect_frame_duration * 5)
         ? perfect_frame_duration : last_frame_duration;
spill = delta_buffer * delta_buffer_spill;
smoothed_duration = perfect_frame_duration + spill;
delta_buffer += used - smoothed_duration;
step(smoothed_duration);
```

The C++ computes `delta_buffer * 0.01f` in float and truncates the result
into an `int64_t`; the model multiplies by the exact rational value of the
literal and truncates toward zero, leaving the binary32 rounding of the
conversion and product unmodelled — the claims evaluate the spill only at
`delta_buffer = 0`, where both are exactly `0`. -/
def dynamicFrame (perfectFrameDuration deltaBuffer lastFrameDuration : Int) :
    DynamicFrameResult :=
  let usedLastFrameDuration :=
    if lastFrameDuration > perfectFrameDuration * 5 then perfectFrameDuration
    else lastFrameDuration
  let spill := SDLEvent.cTrunc ((deltaBuffer : Rat) * delta_buffer_spill)
  let smoothedDuration := perfectFrameDuration + spill
  { spill := spill
    smoothedDuration := smoothedDuration
    deltaBuffer := deltaBuffer + (usedLastFrameDuration - smoothedDuration) }

/-- The delta buffer after a sequence of measured frame durations. -/
def dynamicRunDeltaBuffer (perfectFrameDuration : Int) (durations : List Int)
    (deltaBuffer : Int) : Int :=
  durations.foldl
    (fun db d => (dynamicFrame perfectFrameDuration db d).deltaBuffer)
    deltaBuffer

/-! ## `MainLoop::notify_input`: the event dispatch chain -/

/-- Observable effects of `MainLoop::notify_input`, in program order. -/
inductive NotifyAction where
  | setExiting
  | videoOnWindowResized
  | makeRootSurface
  | gameNotifyWindowSizeChanged
  | suspendSimulation
  | resumeSimulation
  | joypadFallback
  | luaJoypadNotify
  | joypadAutoBind
  | luaNotifyInput
  | gameNotifyInput
  | commandsDispatcherNotify
deriving DecidableEq

/-- The inputs `MainLoop::notify_input` reads besides the event: the
configuration flags, the suspension state, whether a game is running, the
joypad-registry conditions of the controller branch, and the
handled/not-handled answers of the external handlers
(`event.notify_joypad(lua)`, `lua_context->notify_input(event)`,
`game->notify_input(event)`). -/
structure NotifyEnv where
  repeatKeyboard : Bool
  suspendUnfocused : Bool
  suspended : Bool
  gamePresent : Bool
  legacyJoypadEnabled : Bool
  removedJoypadIsGameJoypad : Bool
  gameHasNoJoypad : Bool
  joypadHandled : Bool
  luaHandled : Bool
  gameHandled : Bool
deriving DecidableEq

/-- The `if/else-if` ladder of `MainLoop::notify_input` (window close,
window resize, focus lost, focus gained, keyboard press, controller
events): the effects it performs, in order, and the value of `handled`
afterwards — only the controller branch can set it
(`handled = event.notify_joypad(*lua_context)`). -/
def notify_ladder (env : NotifyEnv) (e : SDLEvent) : List NotifyAction × Bool :=
  if e.is_window_closing then ([NotifyAction.setExiting], false)
  else if e.is_window_resizing then
    ([NotifyAction.videoOnWindowResized, NotifyAction.makeRootSurface] ++
      (if env.gamePresent then [NotifyAction.gameNotifyWindowSizeChanged] else []),
     false)
  else if env.suspendUnfocused && e.is_window_focus_lost then
    ((if !env.suspended then [NotifyAction.suspendSimulation] else []), false)
  else if env.suspendUnfocused && e.is_window_focus_gained then
    ((if env.suspended then [NotifyAction.resumeSimulation] else []), false)
  else if e.is_keyboard_key_pressed env.repeatKeyboard then
    ([], false)
  else if e.is_controller_event then
    ((if env.legacyJoypadEnabled && e.is_joypad_removed && env.gamePresent &&
          env.removedJoypadIsGameJoypad then
        [NotifyAction.joypadFallback]
      else []) ++
       [NotifyAction.luaJoypadNotify] ++
       (if env.legacyJoypadEnabled && e.is_joypad_added && env.gamePresent &&
           env.gameHasNoJoypad then
         [NotifyAction.joypadAutoBind]
       else []),
     env.joypadHandled)
  else ([], false)

/-- `MainLoop::notify_input`: the ladder followed by the three guarded
dispatches
`if (!handled) handled = lua_context->notify_input(event);`,
`if (!handled && game != nullptr) handled = game->notify_input(event);`,
`if (!handled) commands_dispatcher.notify_input(event);`.
Returns the ordered list of effects performed. -/
def notify_input (env : NotifyEnv) (e : SDLEvent) : List NotifyAction :=
  let ladder := notify_ladder env e
  let afterLua : List NotifyAction × Bool :=
    if !ladder.2 then (ladder.1 ++ [NotifyAction.luaNotifyInput], env.luaHandled)
    else ladder
  let afterGame : List NotifyAction × Bool :=
    if !afterLua.2 && env.gamePresent then
      (afterLua.1 ++ [NotifyAction.gameNotifyInput], env.gameHandled)
    else afterLua
  if !afterGame.2 then afterGame.1 ++ [NotifyAction.commandsDispatcherNotify]
  else afterGame.1

/-! # Theorems -/

/-- Helper: a key-down always leaves the pressed-key set with the key
inserted (a no-op when it was already present). -/
theorem keysPressed_keydown (combo : Finset Nat) (s : InputState) (k : Int) (rep : Bool) :
    (get_event_process combo s (SDLEvent.keydown k rep)).state.keysPressed =
      insert k s.keysPressed := by
  simp only [get_event_process]
  split_ifs with h
  · exact (Finset.insert_eq_self.mpr h).symm
  · rfl

/-- Helper: a key-up always leaves the pressed-key set with the key erased
(a no-op when it was already absent). -/
theorem keysPressed_keyup (combo : Finset Nat) (s : InputState) (k : Int) (rep : Bool) :
    (get_event_process combo s (SDLEvent.keyup k rep)).state.keysPressed =
      s.keysPressed.erase k := by
  simp only [get_event_process]
  split_ifs with h
  · rfl
  · exact (Finset.erase_eq_of_not_mem h).symm

/-- Helper: the classification pass computes, key-wise, exactly the
last-event-wins fold from any starting state. -/
theorem get_event_process_all_keys (combo : Finset Nat) :
    ∀ (raws : List SDLEvent) (s : InputState),
      (get_event_process_all combo s raws).keysPressed =
        keysCurrentlyDownFrom s.keysPressed raws := by
  intro raws
  induction raws with
  | nil => intro s; rfl
  | cons raw rest ih =>
      intro s
      have h1 : get_event_process_all combo s (raw :: rest) =
          get_event_process_all combo (get_event_process combo s raw).state rest := rfl
      rw [h1, ih]
      cases raw <;>
        first
          | (rw [keysPressed_keydown]; rfl)
          | (rw [keysPressed_keyup]; rfl)
          | rfl

/-- Helper: executed commands of a trace that starts with a block of
executions. -/
theorem execedCommands_map_append (l : List String) (rest : List LuaAction) :
    execedCommands (l.map LuaAction.execCommand ++ rest) = l ++ execedCommands rest := by
  induction l with
  | nil => rfl
  | cons c cs ih => simpa [execedCommands] using ih

/-- Helper: while the lock is held, a block of executions adds no unlocked
execution. -/
theorem someExecWhileUnlocked_execs (l : List String) (rest : List LuaAction) :
    someExecWhileUnlocked (l.map LuaAction.execCommand ++ rest) true =
      someExecWhileUnlocked rest true := by
  induction l with
  | nil => rfl
  | cons c cs ih => simpa [someExecWhileUnlocked] using ih

/-- Helper: the ladder of `notify_input` never performs the three
later-stage dispatches itself. -/
theorem notify_ladder_no_later (env : NotifyEnv) (e : SDLEvent) :
    NotifyAction.luaNotifyInput ∉ (notify_ladder env e).1 ∧
    NotifyAction.gameNotifyInput ∉ (notify_ladder env e).1 ∧
    NotifyAction.commandsDispatcherNotify ∉ (notify_ladder env e).1 := by
  unfold notify_ladder
  split_ifs <;> simp

/-- C1 (counterexample): a frame of `MainLoop::fixed_run` entered with
`lag = 1_000_000_000` ns (turbo off, never exiting or suspended) does NOT
run 10 steps leaving 900_000_000 ns of lag: the `lag >= 200000000` stall
branch fires first, so exactly 1 step runs and the remaining lag is 0. -/
theorem C1_counterexample :
    (fixedFrame 1000000000 false false noFlags ⟨0, 0, 0⟩).numUpdates = 1 ∧
    (fixedFrame 1000000000 false false noFlags ⟨0, 0, 0⟩).state.lag = 0 ∧
    ¬((fixedFrame 1000000000 false false noFlags ⟨0, 0, 0⟩).numUpdates = 10 ∧
      (fixedFrame 1000000000 false false noFlags ⟨0, 0, 0⟩).state.lag = 900000000) := by
  decide

/-- C1 (amended): the catch-up loop itself, entered with
`lag = 1_000_000_000` ns and `fixed_timestep = 10_000_000` ns, runs exactly
10 steps (the per-frame cap) and leaves `lag = 900_000_000` ns; a whole
frame entered with that lag instead trips the 200 ms stall guard and runs
exactly 1 step; and in general the loop runs a step and subtracts
`fixed_timestep` from `lag` exactly while `lag >= fixed_timestep`, fewer
than 10 steps have run this frame, and the loop is neither exiting nor
suspended. -/
theorem C1_catchup_loop :
    catchupLoop noFlags 1000000000 0 = (900000000, 10) ∧
    (fixedFrame 1000000000 false false noFlags ⟨0, 0, 0⟩).numUpdates = 1 ∧
    (∀ (flags : Nat → Bool × Bool) (lag : Int) (n : Nat),
        fixed_timestep_ns ≤ lag → n < 10 → (flags n).1 = false → (flags n).2 = false →
        catchupLoop flags lag n = catchupLoop flags (lag - fixed_timestep_ns) (n + 1)) ∧
    (∀ (flags : Nat → Bool × Bool) (lag : Int) (n : Nat),
        ¬(fixed_timestep_ns ≤ lag ∧ n < 10 ∧ (flags n).1 = false ∧ (flags n).2 = false) →
        catchupLoop flags lag n = (lag, n)) := by
  refine ⟨by decide, by decide, ?_, ?_⟩
  · intro flags lag n h1 h2 h3 h4
    have hm : 10 - n = (10 - (n + 1)) + 1 := by omega
    simp only [catchupLoop]
    rw [hm]
    simp only [catchupLoopGo]
    rw [if_pos ⟨h1, h2, h3, h4⟩]
  · intro flags lag n h
    rcases Nat.lt_or_ge n 10 with hn | hn
    · obtain ⟨m, hm⟩ : ∃ m, 10 - n = m + 1 := ⟨10 - n - 1, by omega⟩
      simp only [catchupLoop]
      rw [hm]
      simp only [catchupLoopGo]
      rw [if_neg h]
    · have hm : 10 - n = 0 := by omega
      simp only [catchupLoop]
      rw [hm]
      rfl

/-- C1 (witness): the loop-step characterization applied at a concrete
state where the guard holds. -/
theorem C1_witness :
    catchupLoop noFlags 20000000 0 =
      catchupLoop noFlags (20000000 - fixed_timestep_ns) (0 + 1) :=
  C1_catchup_loop.2.2.1 noFlags 20000000 0 (by decide) (by decide) rfl rfl

/-- C2: whenever the accumulated lag at the start of a frame is at least
200 ms, the stall branch adds `lag - fixed_timestep` to `time_dropped`,
sets `lag` to exactly one `fixed_timestep`, and re-derives
`last_frame_date` from the adjusted real time; concretely, a 500 ms stall
leaves exactly one timestep of lag and the frame runs exactly 1 catch-up
step (not 50), finishing with `lag = 0`. -/
theorem C2_stall_guard :
    (∀ (s : FixedState) (realTime : Int),
        stall_threshold_ns ≤ s.lag + ((realTime - s.timeDropped) - s.lastFrameDate) →
        accumulateAndAdjust realTime s =
          { lastFrameDate := realTime -
              (s.timeDropped +
                (s.lag + ((realTime - s.timeDropped) - s.lastFrameDate) - fixed_timestep_ns))
            lag := fixed_timestep_ns
            timeDropped := s.timeDropped +
              (s.lag + ((realTime - s.timeDropped) - s.lastFrameDate) - fixed_timestep_ns) }) ∧
    (accumulateAndAdjust 500000000 ⟨0, 0, 0⟩).lag = fixed_timestep_ns ∧
    (accumulateAndAdjust 500000000 ⟨0, 0, 0⟩).timeDropped = 490000000 ∧
    (fixedFrame 500000000 false false noFlags ⟨0, 0, 0⟩).numUpdates = 1 ∧
    (fixedFrame 500000000 false false noFlags ⟨0, 0, 0⟩).state.lag = 0 := by
  refine ⟨?_, by decide, by decide, by decide, by decide⟩
  intro s rt h
  simp only [accumulateAndAdjust]
  rw [if_pos h]

/-- C2 (witness): the stall adjustment applied to a concrete 500 ms
stall. -/
theorem C2_witness :
    accumulateAndAdjust 500000000 ⟨0, 0, 0⟩ =
      { lastFrameDate := 500000000 -
          (0 + ((0 : Int) + ((500000000 - 0) - 0) - fixed_timestep_ns))
        lag := fixed_timestep_ns
        timeDropped := 0 + ((0 : Int) + ((500000000 - 0) - 0) - fixed_timestep_ns) } :=
  C2_stall_guard.1 ⟨0, 0, 0⟩ 500000000 (by decide)

/-- C3: the normalized joypad axis state is `0` inside the deadzone
(default 500), `v/32767` for positive values outside it and `v/32768` for
negative values outside it; concretely `0 ↦ 0`, `499 ↦ 0`, `500 ↦ > 0`,
`32767 ↦ 1`, `-32768 ↦ -1`. -/
theorem C3_joypad_axis_state :
    (∀ axis v : Int, |v| < joypad_deadzone →
        SDLEvent.get_joypad_axis_state joypad_deadzone
          (SDLEvent.controlleraxismotion axis v) = 0) ∧
    (∀ axis v : Int, ¬(|v| < joypad_deadzone) → 0 < v →
        SDLEvent.get_joypad_axis_state joypad_deadzone
          (SDLEvent.controlleraxismotion axis v) = (v : Rat) / 32767) ∧
    (∀ axis v : Int, ¬(|v| < joypad_deadzone) → v < 0 →
        SDLEvent.get_joypad_axis_state joypad_deadzone
          (SDLEvent.controlleraxismotion axis v) = (v : Rat) / 32768) ∧
    SDLEvent.get_joypad_axis_state joypad_deadzone (SDLEvent.controlleraxismotion 0 0) = 0 ∧
    SDLEvent.get_joypad_axis_state joypad_deadzone (SDLEvent.controlleraxismotion 0 499) = 0 ∧
    0 < SDLEvent.get_joypad_axis_state joypad_deadzone (SDLEvent.controlleraxismotion 0 500) ∧
    SDLEvent.get_joypad_axis_state joypad_deadzone (SDLEvent.controlleraxismotion 0 32767) = 1 ∧
    SDLEvent.get_joypad_axis_state joypad_deadzone
      (SDLEvent.controlleraxismotion 0 (-32768)) = -1 := by
  refine ⟨?_, ?_, ?_, ?_, ?_, ?_, ?_, ?_⟩
  · intro axis v h
    simp only [SDLEvent.get_joypad_axis_state]
    rw [if_pos h]
  · intro axis v h hv
    simp only [SDLEvent.get_joypad_axis_state]
    rw [if_neg h, if_pos hv]
  · intro axis v h hv
    simp only [SDLEvent.get_joypad_axis_state]
    rw [if_neg h, if_neg (by omega : ¬ v > 0)]
  · norm_num [SDLEvent.get_joypad_axis_state, joypad_deadzone]
  · norm_num [SDLEvent.get_joypad_axis_state, joypad_deadzone]
  · norm_num [SDLEvent.get_joypad_axis_state, joypad_deadzone]
  · norm_num [SDLEvent.get_joypad_axis_state, joypad_deadzone]
  · norm_num [SDLEvent.get_joypad_axis_state, joypad_deadzone]

/-- C3 (witness): the positive-divisor law applied at the concrete raw
value 700. -/
theorem C3_witness :
    SDLEvent.get_joypad_axis_state joypad_deadzone
      (SDLEvent.controlleraxismotion 0 700) = (700 : Rat) / 32767 :=
  C3_joypad_axis_state.2.1 0 700 (by decide) (by decide)

/-- C4: a key-down for an already-pressed key leaves the set unchanged and
forces the repeat flag; a key-down for an absent key inserts it; a key-up
for an absent key leaves the set unchanged and forces the repeat flag; a
key-up for a present key erases it; and after any raw sequence the
pressed-key set equals exactly the set of keys currently down. -/
theorem C4_pressed_key_set :
    (∀ (combo : Finset Nat) (s : InputState) (k : Int) (rep : Bool), k ∈ s.keysPressed →
        (get_event_process combo s (SDLEvent.keydown k rep)).state = s ∧
        (get_event_process combo s (SDLEvent.keydown k rep)).produced =
          SDLEvent.keydown k true) ∧
    (∀ (combo : Finset Nat) (s : InputState) (k : Int) (rep : Bool), k ∉ s.keysPressed →
        (get_event_process combo s (SDLEvent.keydown k rep)).state.keysPressed =
          insert k s.keysPressed ∧
        (get_event_process combo s (SDLEvent.keydown k rep)).produced =
          SDLEvent.keydown k rep) ∧
    (∀ (combo : Finset Nat) (s : InputState) (k : Int) (rep : Bool), k ∉ s.keysPressed →
        (get_event_process combo s (SDLEvent.keyup k rep)).state = s ∧
        (get_event_process combo s (SDLEvent.keyup k rep)).produced =
          SDLEvent.keyup k true) ∧
    (∀ (combo : Finset Nat) (s : InputState) (k : Int) (rep : Bool), k ∈ s.keysPressed →
        (get_event_process combo s (SDLEvent.keyup k rep)).state.keysPressed =
          s.keysPressed.erase k ∧
        (get_event_process combo s (SDLEvent.keyup k rep)).produced =
          SDLEvent.keyup k rep) ∧
    (∀ (combo : Finset Nat) (raws : List SDLEvent),
        (get_event_process_all combo initialInputState raws).keysPressed =
          keysCurrentlyDown raws) := by
  refine ⟨?_, ?_, ?_, ?_, ?_⟩
  · intro combo s k rep h
    constructor <;> simp [get_event_process, h]
  · intro combo s k rep h
    constructor <;> simp [get_event_process, h]
  · intro combo s k rep h
    constructor <;> simp [get_event_process, h]
  · intro combo s k rep h
    constructor <;> simp [get_event_process, h]
  · intro combo raws
    exact get_event_process_all_keys combo raws initialInputState

/-- C4 (witness): a duplicate key-down at a concrete state leaves the set
unchanged and forces the repeat flag. -/
theorem C4_witness :
    (get_event_process ∅ ⟨{5}, ∅⟩ (SDLEvent.keydown 5 false)).state =
      (⟨{5}, ∅⟩ : InputState) ∧
    (get_event_process ∅ ⟨{5}, ∅⟩ (SDLEvent.keydown 5 false)).produced =
      SDLEvent.keydown 5 true :=
  C4_pressed_key_set.1 ∅ ⟨{5}, ∅⟩ 5 false (by decide)

/-- C5: a joypad-button-down inserts the button and injects a window-close
event into the raw queue exactly when the resulting set equals the quit
combo (the event returned is still the button event, never the close); a
joypad-button-up erases the button and injects nothing. -/
theorem C5_quit_combo :
    (∀ (combo : Finset Nat) (s : InputState) (b : Nat),
        (get_event_process combo s (SDLEvent.joybuttondown b)).state.jbuttonsPressed =
          insert b s.jbuttonsPressed ∧
        (get_event_process combo s (SDLEvent.joybuttondown b)).produced =
          SDLEvent.joybuttondown b) ∧
    (∀ (combo : Finset Nat) (s : InputState) (b : Nat),
        (get_event_process combo s (SDLEvent.joybuttondown b)).injected = [SDLEvent.quit] ↔
          insert b s.jbuttonsPressed = combo) ∧
    (∀ (combo : Finset Nat) (s : InputState) (b : Nat),
        insert b s.jbuttonsPressed ≠ combo →
        (get_event_process combo s (SDLEvent.joybuttondown b)).injected = []) ∧
    (∀ (combo : Finset Nat) (s : InputState) (b : Nat),
        (get_event_process combo s (SDLEvent.joybuttonup b)).state.jbuttonsPressed =
          s.jbuttonsPressed.erase b ∧
        (get_event_process combo s (SDLEvent.joybuttonup b)).injected = []) := by
  refine ⟨?_, ?_, ?_, ?_⟩
  · intro combo s b
    exact ⟨rfl, rfl⟩
  · intro combo s b
    simp only [get_event_process]
    split_ifs with h <;> simp [h]
  · intro combo s b h
    simp only [get_event_process]
    rw [if_neg h]
  · intro combo s b
    exact ⟨rfl, rfl⟩

/-- C5 (witness): a button press that does not complete the combo injects
nothing. -/
theorem C5_witness :
    (get_event_process {0, 1} ⟨∅, ∅⟩ (SDLEvent.joybuttondown 2)).injected = [] :=
  C5_quit_combo.2.2.1 {0, 1} ⟨∅, ∅⟩ 2 (by decide)

/-- C6: in dynamic-timestep mode, starting from `delta_buffer = 0` with
every measured frame duration equal to the nominal display period, each
frame has spill `0` and smoothed duration equal to the nominal period, and
the delta buffer stays `0` after any number of frames. -/
theorem C6_dynamic_idempotence :
    (∀ perfect : Int, 0 ≤ perfect →
        dynamicFrame perfect 0 perfect =
          { spill := 0, smoothedDuration := perfect, deltaBuffer := 0 }) ∧
    (∀ (perfect : Int) (n : Nat), 0 ≤ perfect →
        dynamicRunDeltaBuffer perfect (List.replicate n perfect) 0 = 0) := by
  have hs : SDLEvent.cTrunc (((0 : Int) : Rat) * delta_buffer_spill) = 0 := by
    norm_num [SDLEvent.cTrunc]
  have hframe : ∀ perfect : Int, 0 ≤ perfect →
      dynamicFrame perfect 0 perfect =
        { spill := 0, smoothedDuration := perfect, deltaBuffer := 0 } := by
    intro p hp
    simp only [dynamicFrame]
    rw [if_neg (by omega : ¬ p > p * 5), hs]
    simp only [DynamicFrameResult.mk.injEq]
    exact ⟨trivial, by omega, by omega⟩
  refine ⟨hframe, ?_⟩
  intro p n hp
  induction n with
  | zero => rfl
  | succ m ih =>
      have h1 : dynamicRunDeltaBuffer p (List.replicate (m + 1) p) 0 =
          dynamicRunDeltaBuffer p (List.replicate m p)
            (dynamicFrame p 0 p).deltaBuffer := by
        rw [List.replicate_succ]
        rfl
      rw [h1, hframe p hp]
      exact ih

/-- C6 (witness): the idempotence facts at a concrete 60 Hz period. -/
theorem C6_witness :
    dynamicFrame 16666666 0 16666666 =
      { spill := 0, smoothedDuration := 16666666, deltaBuffer := 0 } ∧
    dynamicRunDeltaBuffer 16666666 (List.replicate 3 16666666) 0 = 0 :=
  ⟨C6_dynamic_idempotence.1 16666666 (by decide),
   C6_dynamic_idempotence.2 16666666 3 (by decide)⟩

/-- C7 (counterexample): for the batch "A", "B", "C", the drain trace of
`MainLoop::check_input` does NOT release the mutex before executing the
commands: every command is executed while the lock is held (the
`std::lock_guard` scope encloses the execution loop and the clear). -/
theorem C7_counterexample :
    releasedBeforeFirstExec
      (checkInputLuaDrain true ⟨["A", "B", "C"], 3, 0⟩).1 = false ∧
    someExecWhileLocked (checkInputLuaDrain true ⟨["A", "B", "C"], 3, 0⟩).1 false = true := by
  decide

/-- C7 (amended): `push_lua_command` appends under the mutex and returns
the pre-increment pushed counter; the drain executes the whole pending
batch in submission order, increments the done counter once per command,
and clears the pending list — all while holding the mutex, which is
released only after the executions and the clear; for the batch
"A", "B", "C" the executed order is exactly A, B, C and the done counter
grows by 3. -/
theorem C7_queue_drain :
    (∀ (q : CommandQueue) (c : String),
        (push_lua_command q c).1 = q.pushed ∧
        (push_lua_command q c).2.pending = q.pending ++ [c] ∧
        (push_lua_command q c).2.pushed = q.pushed + 1 ∧
        (push_lua_command q c).2.done = q.done) ∧
    (∀ q : CommandQueue, q.pending ≠ [] →
        execedCommands (checkInputLuaDrain true q).1 = q.pending ∧
        (checkInputLuaDrain true q).2.pending = [] ∧
        (checkInputLuaDrain true q).2.done = q.done + q.pending.length ∧
        someExecWhileUnlocked (checkInputLuaDrain true q).1 false = false) ∧
    execedCommands (checkInputLuaDrain true ⟨["A", "B", "C"], 3, 0⟩).1 = ["A", "B", "C"] ∧
    (checkInputLuaDrain true ⟨["A", "B", "C"], 3, 0⟩).2.done = 0 + 3 ∧
    (checkInputLuaDrain true ⟨["A", "B", "C"], 3, 0⟩).2.pending = [] := by
  refine ⟨fun q c => ⟨rfl, rfl, rfl, rfl⟩, ?_, by decide, by decide, by decide⟩
  intro q h
  have hcond : True ∧ q.pending ≠ [] := ⟨trivial, h⟩
  refine ⟨?_, ?_, ?_, ?_⟩
  · simp only [checkInputLuaDrain]
    rw [if_pos hcond]
    have := execedCommands_map_append q.pending
      [LuaAction.clearPending, LuaAction.releaseLock]
    simpa [execedCommands] using this
  · simp only [checkInputLuaDrain]
    rw [if_pos hcond]
  · simp only [checkInputLuaDrain]
    rw [if_pos hcond]
  · simp only [checkInputLuaDrain]
    rw [if_pos hcond]
    simp only [someExecWhileUnlocked]
    rw [someExecWhileUnlocked_execs]
    rfl

/-- C7 (witness): the drain contract applied to a concrete one-command
batch. -/
theorem C7_witness :
    execedCommands (checkInputLuaDrain true ⟨["X"], 1, 5⟩).1 = ["X"] ∧
    (checkInputLuaDrain true ⟨["X"], 1, 5⟩).2.pending = [] ∧
    (checkInputLuaDrain true ⟨["X"], 1, 5⟩).2.done = 5 + ["X"].length ∧
    someExecWhileUnlocked (checkInputLuaDrain true ⟨["X"], 1, 5⟩).1 false = false :=
  C7_queue_drain.2.1 ⟨["X"], 1, 5⟩ (by decide)

/-- C8: a window-close event sets the exiting flag; a window-resize event
performs the surface-reshape and game-notification side effects and still
reaches the scripting layer (never marked handled); and when the scripting
layer's `notify_input` is invoked and reports the event handled, neither
the game's `notify_input` nor the fallback command dispatcher runs. -/
theorem C8_dispatch_chain :
    (∀ (env : NotifyEnv) (e : SDLEvent), e.is_window_closing = true →
        NotifyAction.setExiting ∈ notify_input env e) ∧
    (∀ (env : NotifyEnv) (e : SDLEvent), e.is_window_resizing = true →
        NotifyAction.videoOnWindowResized ∈ notify_input env e ∧
        NotifyAction.makeRootSurface ∈ notify_input env e ∧
        (env.gamePresent = true →
          NotifyAction.gameNotifyWindowSizeChanged ∈ notify_input env e) ∧
        NotifyAction.luaNotifyInput ∈ notify_input env e) ∧
    (∀ (env : NotifyEnv) (e : SDLEvent),
        NotifyAction.luaNotifyInput ∈ notify_input env e → env.luaHandled = true →
        NotifyAction.gameNotifyInput ∉ notify_input env e ∧
        NotifyAction.commandsDispatcherNotify ∉ notify_input env e) := by
  refine ⟨?_, ?_, ?_⟩
  · intro env e he
    have h1 : notify_ladder env e = ([NotifyAction.setExiting], false) := by
      unfold notify_ladder
      rw [if_pos he]
    simp only [notify_input, h1]
    split_ifs <;> simp
  · intro env e he
    have hc : e.is_window_closing = false := by
      cases e <;> simp_all [SDLEvent.is_window_closing, SDLEvent.is_window_resizing]
    have h1 : notify_ladder env e =
        ([NotifyAction.videoOnWindowResized, NotifyAction.makeRootSurface] ++
          (if env.gamePresent then [NotifyAction.gameNotifyWindowSizeChanged] else []),
         false) := by
      unfold notify_ladder
      rw [if_neg (by simp [hc]), if_pos he]
    simp only [notify_input, h1]
    split_ifs <;> simp_all
  · intro env e hmem hlua
    have hno := notify_ladder_no_later env e
    cases hl : (notify_ladder env e).2 with
    | true =>
        exfalso
        have hacts : notify_input env e = (notify_ladder env e).1 := by
          simp [notify_input, hl]
        rw [hacts] at hmem
        exact hno.1 hmem
    | false =>
        have hacts : notify_input env e =
            (notify_ladder env e).1 ++ [NotifyAction.luaNotifyInput] := by
          simp [notify_input, hl, hlua]
        rw [hacts]
        constructor
        · simp [List.mem_append, hno.2.1]
        · simp [List.mem_append, hno.2.2]

/-- C8 (witness): the short-circuit applied at a concrete environment in
which the scripting layer handles the event. -/
theorem C8_witness :
    NotifyAction.gameNotifyInput ∉
      notify_input ⟨false, false, false, false, false, false, false, false, true, false⟩
        SDLEvent.mousewheel ∧
    NotifyAction.commandsDispatcherNotify ∉
      notify_input ⟨false, false, false, false, false, false, false, false, true, false⟩
        SDLEvent.mousewheel :=
  C8_dispatch_chain.2.2
    ⟨false, false, false, false, false, false, false, false, true, false⟩
    SDLEvent.mousewheel (by decide) rfl

/-- C9 (counterexample): in a release (`NDEBUG`) build, calling
`get_mouse_position` (or the finger accessors) on a non-mouse/non-finger
event is NOT undefined/unchecked: `SOLARUS_REQUIRE` does not look at
`NDEBUG`, so the call fails loudly exactly as in a debug build. -/
theorem C9_counterexample :
    SDLEvent.get_mouse_position Build.release (SDLEvent.keydown 97 false) =
      Except.error "Event is not a mouse event" ∧
    SDLEvent.get_finger_position Build.release 640 480 (SDLEvent.keydown 97 false) =
      Except.error "Event is not a touch finger event" ∧
    SDLEvent.get_finger_pressure Build.release (SDLEvent.keydown 97 false) =
      Except.error "Event is not a touch finger event" ∧
    SDLEvent.get_mouse_position Build.release (SDLEvent.keydown 97 false) =
      SDLEvent.get_mouse_position Build.debug (SDLEvent.keydown 97 false) := by
  refine ⟨rfl, rfl, rfl, rfl⟩

/-- C9 (amended): position and pressure queries on a wrong-kind event fail
loudly in EVERY build (they use the unconditional `SOLARUS_REQUIRE`, not
the debug-only `SOLARUS_ASSERT`), while the other wrong-kind accessors
(`get_keyboard_key`, `get_mouse_button`, `get_joypad_button`) return their
defined "none" sentinels. -/
theorem C9_wrong_kind_accessors :
    (∀ (b : Build) (e : SDLEvent), e.is_mouse_event = false →
        SDLEvent.get_mouse_position b e = Except.error "Event is not a mouse event") ∧
    (∀ (b : Build) (outW outH : Int) (e : SDLEvent), e.is_finger_event = false →
        SDLEvent.get_finger_position b outW outH e =
          Except.error "Event is not a touch finger event") ∧
    (∀ (b : Build) (e : SDLEvent), e.is_finger_event = false →
        SDLEvent.get_finger_pressure b e =
          Except.error "Event is not a touch finger event") ∧
    (∀ (rk : Bool) (e : SDLEvent), e.is_keyboard_event rk = false →
        e.get_keyboard_key rk = KEY_NONE) ∧
    (∀ e : SDLEvent, e.is_mouse_event = false → e.get_mouse_button = MouseButton.NONE) ∧
    (∀ e : SDLEvent, e.is_joypad_button_pressed = false →
        e.is_joypad_button_released = false →
        e.get_joypad_button = JOYPAD_BUTTON_INVALID) := by
  refine ⟨?_, ?_, ?_, ?_, ?_, ?_⟩
  · intro b e h
    simp [SDLEvent.get_mouse_position, SOLARUS_REQUIRE, h]
  · intro b outW outH e h
    simp [SDLEvent.get_finger_position, SOLARUS_REQUIRE, h]
  · intro b e h
    simp [SDLEvent.get_finger_pressure, SOLARUS_REQUIRE, h]
  · intro rk e h
    simp [SDLEvent.get_keyboard_key, h]
  · intro e h
    simp [SDLEvent.get_mouse_button, h]
  · intro e h1 h2
    simp [SDLEvent.get_joypad_button, h1, h2]

/-- C9 (witness): the mouse-position guard fires on a concrete finger
event, in the debug build. -/
theorem C9_witness :
    SDLEvent.get_mouse_position Build.debug (SDLEvent.fingerdown 1 0 0 1) =
      Except.error "Event is not a mouse event" :=
  C9_wrong_kind_accessors.1 Build.debug (SDLEvent.fingerdown 1 0 0 1) rfl

/-- C10: hat events are deprecated — `is_joypad_hat_moved` is false for
every event, the hat accessors return their `-1`/`false` constants, and
`get_direction` is extensionally equal to the same computation with the
hat branch removed. -/
theorem C10_hat_deprecated :
    (∀ e : SDLEvent, e.is_joypad_hat_moved = false) ∧
    (∀ e : SDLEvent, e.get_joypad_hat = -1) ∧
    (∀ e : SDLEvent, e.get_joypad_hat_direction = -1) ∧
    (∀ e : SDLEvent, e.is_joypad_hat_centered = false) ∧
    (∀ (rk : Bool) (dz : Int) (e : SDLEvent),
        e.get_direction rk dz = e.get_direction_spec_nohat rk dz) := by
  refine ⟨fun e => rfl, fun e => rfl, fun e => rfl, fun e => rfl, ?_⟩
  intro rk dz e
  simp only [SDLEvent.get_direction, SDLEvent.get_direction_spec_nohat,
    SDLEvent.is_joypad_hat_moved, Bool.false_eq_true, if_false]

end Solarus
